import Mathlib

/-!
Shallow embedding of `src/project.py`, a webcam drowsiness monitor.

The script defines one pure function, `eyes_closed`, which takes a 6-point
eye contour (a numpy array of integer pixel coordinates) and returns
`np.linalg.norm(pts[0] - pts[1]) < 15`.  The main loop reads camera frames,
runs the external face detector and 68-point landmark predictor, builds the
left-eye contour from landmark indices 36..41 and the right-eye contour from
indices 42..47, and calls `pygame.mixer.music.play(-1)` whenever both eyes
are classified closed.  Only `KeyboardInterrupt` is caught; the `finally`
block runs `cap.release()` and `cv2.destroyAllWindows()`.  No call to
`pygame.mixer.music.stop()` exists anywhere in the script.

Landmark coordinates are integers (dlib's `part(i).x/.y`), so the float
comparison `np.linalg.norm(v) < 15` is exact: for an integer vector `v`,
`sqrt(v.x^2 + v.y^2) < 15` holds iff `v.x^2 + v.y^2 < 225` (the square root
is monotone, both bounds are exactly representable, and IEEE sqrt is
correctly rounded, so the strict comparison never flips).  The executable
embedding therefore compares squared norms; the real-valued score is kept
alongside as `closureScore` and the two are related by `eyes_closed_iff_lt`.
-/

namespace Drowsiness

/-- A landmark point: integer pixel coordinates, as produced by
`(landmarks.part(i).x, landmarks.part(i).y)`. -/
abbrev Point : Type := ℤ × ℤ

/-- Coordinatewise difference `p - q`, the numpy array subtraction
`eye_points[0] - eye_points[1]`. -/
def sub (p q : Point) : Point := (p.1 - q.1, p.2 - q.2)

/-- Squared Euclidean norm of an integer vector. -/
def sqNorm (v : Point) : ℤ := v.1 ^ 2 + v.2 ^ 2

/-- The value `np.linalg.norm` computes on an integer vector, as an exact
real number. -/
noncomputable def norm2 (v : Point) : ℝ := Real.sqrt (sqNorm v : ℤ)

/-- An eye contour: the 6 points the main loop packs into the numpy array
for one eye (fields in the order the source lists them). -/
structure EyeContour where
  p0 : Point
  p1 : Point
  p2 : Point
  p3 : Point
  p4 : Point
  p5 : Point
deriving DecidableEq, Repr

/-- The 6 contour points in their source order. -/
def EyeContour.toList (e : EyeContour) : List Point :=
  [e.p0, e.p1, e.p2, e.p3, e.p4, e.p5]

/-- The function `eyes_closed(eye_points)` from `project.py`:
`np.linalg.norm(eye_points[0] - eye_points[1]) < 15`, stated on squared
integer norms (`< 15` on the norm iff `< 225` on the squared norm). -/
def eyes_closed (e : EyeContour) : Bool :=
  decide (sqNorm (sub e.p0 e.p1) < 225)

/-- The Closure Metric of the spec: the scalar score `eyes_closed` compares
against the threshold, i.e. `np.linalg.norm(eye_points[0] - eye_points[1])`. -/
noncomputable def closureScore (e : EyeContour) : ℝ :=
  norm2 (sub e.p0 e.p1)

/-- Euclidean distance between two points, written out as in the spec
("score = Euclidean distance between the contour's first and second
points"). -/
noncomputable def euclidDist (p q : Point) : ℝ :=
  Real.sqrt (((p.1 - q.1 : ℤ) : ℝ) ^ 2 + ((p.2 - q.2 : ℤ) : ℝ) ^ 2)

/-- The per-frame combination on line 45 of the source:
`eyes_closed(left_eye) and eyes_closed(right_eye)`. -/
def combine (l r : Bool) : Bool := l && r

/-- Translate a point by an offset `t`. -/
def translate (p t : Point) : Point := (p.1 + t.1, p.2 + t.2)

/-- Translate all six points of a contour by the same offset. -/
def EyeContour.translateBy (e : EyeContour) (t : Point) : EyeContour :=
  ⟨translate e.p0 t, translate e.p1 t, translate e.p2 t,
   translate e.p3 t, translate e.p4 t, translate e.p5 t⟩

/-- Scenario A contour from the spec:
`[(0,0),(0,10),(1,9),(2,8),(2,1),(1,0)]`. -/
def scenarioA : EyeContour :=
  ⟨(0, 0), (0, 10), (1, 9), (2, 8), (2, 1), (1, 0)⟩

/-- Scenario B contour: the Scenario A shape scaled by 2, so its first two
points are `(0,0)` and `(0,20)`. -/
def scenarioB : EyeContour :=
  ⟨(0, 0), (0, 20), (2, 18), (4, 16), (4, 2), (2, 0)⟩

theorem norm2_eq_euclidDist (p q : Point) : norm2 (sub p q) = euclidDist p q := by
  unfold norm2 euclidDist sub sqNorm
  congr 1
  push_cast
  ring

theorem eyes_closed_iff_lt (e : EyeContour) :
    eyes_closed e = true ↔ closureScore e < 15 := by
  unfold eyes_closed closureScore norm2
  rw [decide_eq_true_iff, Real.sqrt_lt' (by norm_num : (0 : ℝ) < 15)]
  constructor
  · intro h
    calc ((sqNorm (sub e.p0 e.p1) : ℤ) : ℝ) < ((225 : ℤ) : ℝ) := by exact_mod_cast h
    _ = (15 : ℝ) ^ 2 := by norm_num
  · intro h
    have h2 : ((sqNorm (sub e.p0 e.p1) : ℤ) : ℝ) < ((225 : ℤ) : ℝ) := by
      calc ((sqNorm (sub e.p0 e.p1) : ℤ) : ℝ) < (15 : ℝ) ^ 2 := h
      _ = ((225 : ℤ) : ℝ) := by norm_num
    exact_mod_cast h2

/-- C5: the Closure Metric is exactly the Euclidean distance between the
contour's first and second points; it ignores points 3..6 entirely; and on
the Scenario A contour `[(0,0),(0,10),(1,9),(2,8),(2,1),(1,0)]` it
evaluates to `10`. -/
theorem closure_metric_is_first_two_distance :
    (∀ e : EyeContour, closureScore e = euclidDist e.p0 e.p1)
    ∧ (∀ p q a b c d a2 b2 c2 d2 : Point,
        closureScore ⟨p, q, a, b, c, d⟩ = closureScore ⟨p, q, a2, b2, c2, d2⟩)
    ∧ closureScore scenarioA = 10 := by
  refine ⟨fun e => norm2_eq_euclidDist e.p0 e.p1, fun p q a b c d a2 b2 c2 d2 => rfl, ?_⟩
  show norm2 (sub (0, 0) (0, 10)) = 10
  unfold norm2 sub sqNorm
  norm_num
  rw [show (100 : ℝ) = 10 ^ 2 by norm_num, Real.sqrt_sq (by norm_num : (0 : ℝ) ≤ 10)]

/-- C6: an eye is classified closed iff its closure score is strictly below
the hard-coded threshold 15; on the Scenario B contour the score is `20`
and the verdict is "not closed". -/
theorem classify_lt_threshold :
    (∀ e : EyeContour, eyes_closed e = true ↔ closureScore e < 15)
    ∧ closureScore scenarioB = 20
    ∧ eyes_closed scenarioB = false := by
  refine ⟨eyes_closed_iff_lt, ?_, by decide⟩
  show norm2 (sub (0, 0) (0, 20)) = 20
  unfold norm2 sub sqNorm
  norm_num
  rw [show (400 : ℝ) = 20 ^ 2 by norm_num, Real.sqrt_sq (by norm_num : (0 : ℝ) ≤ 20)]

/-- C10: translating every point of a contour by a fixed offset does not
change the `eyes_closed` verdict (the decision depends only on the
difference of the first two points). -/
theorem eyes_closed_translation_invariant :
    ∀ (e : EyeContour) (t : Point),
      eyes_closed (e.translateBy t) = eyes_closed e := by
  intro e t
  have h : sqNorm (sub (e.translateBy t).p0 (e.translateBy t).p1)
      = sqNorm (sub e.p0 e.p1) := by
    simp only [EyeContour.translateBy, translate, sub, sqNorm]
    ring
  unfold eyes_closed
  rw [h]

/-!
The main loop, as a trace semantics.  External inputs (camera reads, the
faces the detector finds, the landmark lists the predictor returns, the
quit key, `KeyboardInterrupt`, and errors raised inside the external
detection calls) are a list of per-iteration `FrameIn` values; the
observable output is the list of side-effecting calls the script makes:
`pygame.mixer.music.play(-1)`, `pygame.mixer.music.stop()` (which the
script never calls), `cap.release()` and `cv2.destroyAllWindows()`.
-/

/-- The observable effectful calls of the script. -/
inductive Event where
  | play
  | stopAlarm
  | release
  | destroyWindows
deriving DecidableEq, Repr

/-- The `finally` block: `cap.release(); cv2.destroyAllWindows()`. -/
def cleanup : List Event := [Event.release, Event.destroyWindows]

/-- One loop iteration's external input. -/
inductive FrameIn where
  /-- A successful `cap.read()`; the detector found `faces`, given as the
  landmark list the predictor returns for each; `quit` is whether
  `cv2.waitKey` reports the `q` key after this frame. -/
  | frame (faces : List (List Point)) (quit : Bool)
  /-- A failed `cap.read()` (`ret = False`): the loop breaks. -/
  | readFail
  /-- A `KeyboardInterrupt` raised at this iteration (caught by the
  `except` clause). -/
  | interrupt
  /-- The external detector or predictor raises some other exception this
  iteration (not caught: only `KeyboardInterrupt` is). -/
  | svcError
deriving Repr

/-- The accessor `landmarks.part(i)`, on a landmark list: `none` when the
index is out of range (dlib raises in that case). -/
def part (lms : List Point) (i : Nat) : Option Point := lms.get? i

/-- Lines 31..43 of the source: build the two eye contours from landmark
indices 36..41 and 42..47.  `none` models the exception raised when an
accessed index is out of range. -/
def extractEyes (lms : List Point) : Option (EyeContour × EyeContour) := do
  let a36 ← part lms 36
  let a37 ← part lms 37
  let a38 ← part lms 38
  let a39 ← part lms 39
  let a40 ← part lms 40
  let a41 ← part lms 41
  let a42 ← part lms 42
  let a43 ← part lms 43
  let a44 ← part lms 44
  let a45 ← part lms 45
  let a46 ← part lms 46
  let a47 ← part lms 47
  pure (⟨a36, a37, a38, a39, a40, a41⟩, ⟨a42, a43, a44, a45, a46, a47⟩)

/-- Process one detected face: extract the eye contours and combine the two
`eyes_closed` verdicts into the face's drowsiness signal.  `none` models an
exception escaping the loop body. -/
def processFace (lms : List Point) : Option Bool :=
  (extractEyes lms).map fun lr => combine (eyes_closed lr.1) (eyes_closed lr.2)

/-- The `for face in faces` body: each face whose signal is true triggers
`pygame.mixer.music.play(-1)`.  Returns the emitted events and whether the
whole frame completed without an exception. -/
def processFaces : List (List Point) → List Event × Bool
  | [] => ([], true)
  | f :: fs =>
    match processFace f with
    | none => ([], false)
    | some sig =>
      let rest := processFaces fs
      ((if sig then [Event.play] else []) ++ rest.1, rest.2)

/-- The `while True` loop with its `try/except KeyboardInterrupt/finally`:
the trace of effectful calls for a given input list.  An exhausted input
list means the run is still going (no exit has happened yet), so no cleanup
appears. -/
def runLoop : List FrameIn → List Event
  | [] => []
  | FrameIn.readFail :: _ => cleanup
  | FrameIn.interrupt :: _ => cleanup
  | FrameIn.svcError :: _ => cleanup
  | FrameIn.frame faces quit :: rest =>
    if (processFaces faces).2 then
      (processFaces faces).1 ++ (if quit then cleanup else runLoop rest)
    else (processFaces faces).1 ++ cleanup

/-- Whether a given input list makes the loop exit (by any path: read
failure, interrupt, uncaught service error, uncaught per-face exception, or
the quit key). -/
def exits : List FrameIn → Bool
  | [] => false
  | FrameIn.readFail :: _ => true
  | FrameIn.interrupt :: _ => true
  | FrameIn.svcError :: _ => true
  | FrameIn.frame faces quit :: rest =>
    if (processFaces faces).2 then quit || exits rest else true

/-- Number of occurrences of an event in a trace. -/
def countEvent (e : Event) : List Event → Nat
  | [] => 0
  | x :: xs => (if x = e then 1 else 0) + countEvent e xs

/-- Alarm playback state (`true` = sounding) after a trace of calls, from a
given starting state: `play(-1)` starts looped playback, `stop()` would
halt it. -/
def alarmAfter : Bool → List Event → Bool
  | b, [] => b
  | _, Event.play :: evs => alarmAfter true evs
  | _, Event.stopAlarm :: evs => alarmAfter false evs
  | b, Event.release :: evs => alarmAfter b evs
  | b, Event.destroyWindows :: evs => alarmAfter b evs

/-- A face whose 68 landmarks all coincide: both eyes classified closed, so
its drowsiness signal is true. -/
def flatFace : List Point := List.replicate 68 ((0, 0) : Point)

/-- A 68-point face whose left eye is classified closed (landmarks 36 and
37 coincide) but whose right eye is not (landmarks 42 and 43 are 20 pixels
apart): drowsiness signal false. -/
def halfFace : List Point :=
  List.replicate 43 ((0, 0) : Point) ++ [((0, 20) : Point)]
    ++ List.replicate 24 ((0, 0) : Point)

theorem countEvent_append (e : Event) (l₁ l₂ : List Event) :
    countEvent e (l₁ ++ l₂) = countEvent e l₁ + countEvent e l₂ := by
  induction l₁ with
  | nil => simp [countEvent]
  | cons x xs ih => simp [countEvent, ih]; omega

theorem processFaces_events_play (faces : List (List Point)) :
    ∀ e ∈ (processFaces faces).1, e = Event.play := by
  induction faces with
  | nil => simp [processFaces]
  | cons f fs ih =>
    intro e he
    unfold processFaces at he
    cases h : processFace f with
    | none => rw [h] at he; simp at he
    | some sig =>
      rw [h] at he
      simp only [List.mem_append] at he
      rcases he with he | he
      · cases sig <;> simp_all
      · exact ih e he

theorem processFaces_count_release (faces : List (List Point)) :
    countEvent Event.release (processFaces faces).1 = 0 := by
  induction faces with
  | nil => rfl
  | cons f fs ih =>
    unfold processFaces
    cases h : processFace f with
    | none => rfl
    | some sig =>
      simp only [countEvent_append, ih]
      cases sig <;> simp [countEvent]

theorem processFaces_count_stop (faces : List (List Point)) :
    countEvent Event.stopAlarm (processFaces faces).1 = 0 := by
  induction faces with
  | nil => rfl
  | cons f fs ih =>
    unfold processFaces
    cases h : processFace f with
    | none => rfl
    | some sig =>
      simp only [countEvent_append, ih]
      cases sig <;> simp [countEvent]

theorem get?_eq_some_getD (lms : List Point) (i : Nat) (h : i < lms.length) :
    lms.get? i = some (lms.getD i (0, 0)) := by
  rw [List.getD_eq_getElem?_getD, ← List.get?_eq_getElem?]
  cases hq : lms.get? i with
  | none => exact absurd (List.get?_eq_none.mp hq) (by omega)
  | some a => rfl

theorem extractEyes_of_le (lms : List Point) (h : 48 ≤ lms.length) :
    extractEyes lms = some
      (⟨lms.getD 36 (0, 0), lms.getD 37 (0, 0), lms.getD 38 (0, 0),
        lms.getD 39 (0, 0), lms.getD 40 (0, 0), lms.getD 41 (0, 0)⟩,
       ⟨lms.getD 42 (0, 0), lms.getD 43 (0, 0), lms.getD 44 (0, 0),
        lms.getD 45 (0, 0), lms.getD 46 (0, 0), lms.getD 47 (0, 0)⟩) := by
  have h36 := get?_eq_some_getD lms 36 (by omega)
  have h37 := get?_eq_some_getD lms 37 (by omega)
  have h38 := get?_eq_some_getD lms 38 (by omega)
  have h39 := get?_eq_some_getD lms 39 (by omega)
  have h40 := get?_eq_some_getD lms 40 (by omega)
  have h41 := get?_eq_some_getD lms 41 (by omega)
  have h42 := get?_eq_some_getD lms 42 (by omega)
  have h43 := get?_eq_some_getD lms 43 (by omega)
  have h44 := get?_eq_some_getD lms 44 (by omega)
  have h45 := get?_eq_some_getD lms 45 (by omega)
  have h46 := get?_eq_some_getD lms 46 (by omega)
  have h47 := get?_eq_some_getD lms 47 (by omega)
  simp only [extractEyes, part, h36, h37, h38, h39, h40, h41, h42, h43, h44,
    h45, h46, h47, Option.bind_eq_bind, Option.some_bind, Option.pure_def]

theorem processFaces_of_all_false (faces : List (List Point))
    (h : ∀ f ∈ faces, processFace f = some false) :
    processFaces faces = ([], true) := by
  induction faces with
  | nil => rfl
  | cons f fs ih =>
    have hf : processFace f = some false := h f (by simp)
    have hrest := ih fun g hg => h g (by simp [hg])
    simp [processFaces, hf, hrest]

theorem runLoop_no_stop (ins : List FrameIn) :
    Event.stopAlarm ∉ runLoop ins := by
  induction ins with
  | nil => simp [runLoop]
  | cons i rest ih =>
    cases i with
    | readFail => simp [runLoop, cleanup]
    | interrupt => simp [runLoop, cleanup]
    | svcError => simp [runLoop, cleanup]
    | frame faces quit =>
      intro hmem
      have hplay : ∀ e ∈ (processFaces faces).1, e = Event.play :=
        processFaces_events_play faces
      unfold runLoop at hmem
      cases hpr : (processFaces faces).2 with
      | false =>
        rw [hpr] at hmem
        simp only [Bool.false_eq_true, if_false, List.mem_append] at hmem
        rcases hmem with hmem | hmem
        · exact absurd (hplay _ hmem) (by decide)
        · simp [cleanup] at hmem
      | true =>
        rw [hpr] at hmem
        simp only [if_true, List.mem_append] at hmem
        rcases hmem with hmem | hmem
        · exact absurd (hplay _ hmem) (by decide)
        · cases quit with
          | true => simp [cleanup] at hmem
          | false => exact ih hmem

theorem alarmAfter_true_of_no_stop (evs : List Event)
    (h : Event.stopAlarm ∉ evs) : alarmAfter true evs = true := by
  induction evs with
  | nil => rfl
  | cons e es ih =>
    have he : e ≠ Event.stopAlarm := fun heq => h (by simp [heq])
    have hes : Event.stopAlarm ∉ es := fun hm => h (by simp [hm])
    cases e with
    | play => exact ih hes
    | stopAlarm => exact absurd rfl he
    | release => exact ih hes
    | destroyWindows => exact ih hes

/-- C1 counterexample: on two consecutive single-face frames whose face has
both eyes closed, the script calls `pygame.mixer.music.play(-1)` twice, not
once. -/
theorem two_drowsy_frames_two_plays :
    countEvent Event.play
        (runLoop [FrameIn.frame [flatFace] false, FrameIn.frame [flatFace] false,
          FrameIn.readFail]) = 2
    ∧ countEvent Event.play
        (runLoop [FrameIn.frame [flatFace] false, FrameIn.frame [flatFace] false,
          FrameIn.readFail]) ≠ 1 := by
  decide

/-- C1 (amended): the script keeps no alarm state, so every frame whose
drowsiness signal is true issues a fresh start command: two consecutive
single-face drowsy frames put exactly two `play` calls at the head of the
trace. -/
theorem play_reissued_each_drowsy_frame (lm₁ lm₂ : List Point)
    (rest : List FrameIn)
    (h₁ : processFace lm₁ = some true) (h₂ : processFace lm₂ = some true) :
    runLoop (FrameIn.frame [lm₁] false :: FrameIn.frame [lm₂] false :: rest)
      = Event.play :: Event.play :: runLoop rest := by
  simp [runLoop, processFaces, h₁, h₂]

/-- C1 witness: the amended statement at a concrete face whose 68 landmarks
coincide. -/
theorem play_reissued_each_drowsy_frame_w :
    processFace flatFace = some true
    ∧ runLoop [FrameIn.frame [flatFace] false, FrameIn.frame [flatFace] false,
        FrameIn.readFail]
      = [Event.play, Event.play, Event.release, Event.destroyWindows] :=
  ⟨by decide,
   by
    rw [play_reissued_each_drowsy_frame flatFace flatFace [FrameIn.readFail]
      (by decide) (by decide)]
    rfl⟩

/-- C2 counterexample: on the camera-read-failure exit path the script
performs zero `pygame.mixer.music.stop()` calls, not exactly one (the
script contains no stop call at all). -/
theorem no_stop_on_exit_cex :
    countEvent Event.stopAlarm (runLoop [FrameIn.readFail]) = 0
    ∧ countEvent Event.stopAlarm (runLoop [FrameIn.readFail]) ≠ 1 := by
  decide

/-- C2 (amended): on every exit path of the loop, the camera release runs
exactly once, and the alarm stop operation runs zero times (it is never
invoked anywhere in the script). -/
theorem shutdown_release_once_no_stop (ins : List FrameIn)
    (h : exits ins = true) :
    countEvent Event.release (runLoop ins) = 1
    ∧ countEvent Event.stopAlarm (runLoop ins) = 0 := by
  induction ins with
  | nil => exact absurd h (by decide)
  | cons i rest ih =>
    cases i with
    | readFail => exact ⟨rfl, rfl⟩
    | interrupt => exact ⟨rfl, rfl⟩
    | svcError => exact ⟨rfl, rfl⟩
    | frame faces quit =>
      unfold runLoop
      unfold exits at h
      by_cases hpr : (processFaces faces).2 = true
      · rw [if_pos hpr] at h
        rw [if_pos hpr]
        cases quit with
        | true =>
          rw [if_pos rfl, countEvent_append, countEvent_append,
            processFaces_count_release, processFaces_count_stop]
          exact ⟨rfl, rfl⟩
        | false =>
          rw [Bool.false_or] at h
          have hr := ih h
          rw [if_neg Bool.false_ne_true, countEvent_append, countEvent_append,
            processFaces_count_release, processFaces_count_stop, hr.1, hr.2]
          exact ⟨rfl, rfl⟩
      · rw [if_neg hpr]
        rw [countEvent_append, countEvent_append, processFaces_count_release,
          processFaces_count_stop]
        exact ⟨rfl, rfl⟩

/-- C2 witness: the amended statement on the concrete read-failure run. -/
theorem shutdown_release_once_no_stop_w :
    exits [FrameIn.readFail] = true
    ∧ countEvent Event.release (runLoop [FrameIn.readFail]) = 1
    ∧ countEvent Event.stopAlarm (runLoop [FrameIn.readFail]) = 0 :=
  ⟨rfl, (shutdown_release_once_no_stop [FrameIn.readFail] rfl).1,
    (shutdown_release_once_no_stop [FrameIn.readFail] rfl).2⟩

/-- C3 counterexample: when the detection service raises on a frame, the
loop does not continue with the next frame: a following frame with a
drowsy face is never processed (no `play` appears), and the trace is
exactly the cleanup of the `finally` block. -/
theorem svc_error_not_skipped_cex :
    runLoop [FrameIn.svcError, FrameIn.frame [flatFace] false, FrameIn.readFail]
      = [Event.release, Event.destroyWindows]
    ∧ countEvent Event.play
        (runLoop [FrameIn.svcError, FrameIn.frame [flatFace] false,
          FrameIn.readFail]) = 0
    ∧ processFace flatFace = some true := by
  exact ⟨rfl, rfl, by decide⟩

/-- C3 (amended): an error raised by the external detector or predictor is
not caught (only `KeyboardInterrupt` is), so it terminates the loop: the
`finally` cleanup runs at once, no later frame is processed, and no alarm
command is issued during shutdown, so the playback state at the time of the
error is left as it was. -/
theorem svc_error_terminates_loop :
    (∀ rest : List FrameIn, runLoop (FrameIn.svcError :: rest) = cleanup)
    ∧ (∀ (rest : List FrameIn) (b : Bool),
        alarmAfter b (runLoop (FrameIn.svcError :: rest)) = b) :=
  ⟨fun _ => rfl, fun _ b => by cases b <;> rfl⟩

/-- C4: a processed frame whose drowsiness signal is false — in particular
a frame with zero faces — contributes no effectful call to the trace, the
trace never contains an alarm stop, and once the alarm is sounding it stays
sounding (one-way latch). -/
theorem false_signal_frame_no_command :
    (∀ (faces : List (List Point)) (quit : Bool) (rest : List FrameIn),
        (∀ f ∈ faces, processFace f = some false) →
        runLoop (FrameIn.frame faces quit :: rest)
          = if quit then cleanup else runLoop rest)
    ∧ (∀ ins : List FrameIn, Event.stopAlarm ∉ runLoop ins)
    ∧ (∀ ins : List FrameIn, alarmAfter true (runLoop ins) = true) := by
  refine ⟨?_, runLoop_no_stop,
    fun ins => alarmAfter_true_of_no_stop _ (runLoop_no_stop ins)⟩
  intro faces quit rest h
  have hpf := processFaces_of_all_false faces h
  simp [runLoop, hpf]

/-- C4 witness: a frame with one non-drowsy face contributes nothing to the
trace, and the read-failure run contains no stop. -/
theorem false_signal_frame_no_command_w :
    runLoop [FrameIn.frame [halfFace] false, FrameIn.readFail]
      = runLoop [FrameIn.readFail]
    ∧ Event.stopAlarm ∉ runLoop [FrameIn.readFail] :=
  ⟨(false_signal_frame_no_command.1 [halfFace] false [FrameIn.readFail]
      (by decide)).trans rfl,
   false_signal_frame_no_command.2.1 [FrameIn.readFail]⟩

/-- C7: the per-frame combination is conjunction — true iff both per-eye
verdicts are "closed", over all 4 boolean cases — and on a face whose left
eye is closed but right eye is not, the signal is false and no `play` is
emitted. -/
theorem combine_truth_table :
    (∀ l r : Bool, combine l r = true ↔ (l = true ∧ r = true))
    ∧ combine true true = true ∧ combine true false = false
    ∧ combine false true = false ∧ combine false false = false
    ∧ extractEyes halfFace = some
        (⟨(0, 0), (0, 0), (0, 0), (0, 0), (0, 0), (0, 0)⟩,
         ⟨(0, 0), (0, 20), (0, 0), (0, 0), (0, 0), (0, 0)⟩)
    ∧ eyes_closed ⟨(0, 0), (0, 0), (0, 0), (0, 0), (0, 0), (0, 0)⟩ = true
    ∧ eyes_closed ⟨(0, 0), (0, 20), (0, 0), (0, 0), (0, 0), (0, 0)⟩ = false
    ∧ processFace halfFace = some false
    ∧ processFaces [halfFace] = ([], true) := by
  refine ⟨fun l r => by cases l <;> cases r <;> simp [combine], ?_⟩
  decide

/-- C8: on a full 68-point landmark set, eye extraction succeeds and
returns the left-eye contour from landmark indices 36,37,38,39,40,41 and
the right-eye contour from indices 42,43,44,45,46,47, each in ascending
index order. -/
theorem extract_eyes_indices (lms : List Point) (h : lms.length = 68) :
    extractEyes lms = some
      (⟨lms.getD 36 (0, 0), lms.getD 37 (0, 0), lms.getD 38 (0, 0),
        lms.getD 39 (0, 0), lms.getD 40 (0, 0), lms.getD 41 (0, 0)⟩,
       ⟨lms.getD 42 (0, 0), lms.getD 43 (0, 0), lms.getD 44 (0, 0),
        lms.getD 45 (0, 0), lms.getD 46 (0, 0), lms.getD 47 (0, 0)⟩) :=
  extractEyes_of_le lms (by omega)

/-- A 68-point landmark list with distinct points, for instantiating the
extraction theorem. -/
def rampFace : List Point := (List.range 68).map fun i => ((i : ℤ), 0)

/-- C8 witness: extraction on a concrete 68-point landmark list. -/
theorem extract_eyes_indices_w :
    rampFace.length = 68
    ∧ extractEyes rampFace = some
      (⟨(36, 0), (37, 0), (38, 0), (39, 0), (40, 0), (41, 0)⟩,
       ⟨(42, 0), (43, 0), (44, 0), (45, 0), (46, 0), (47, 0)⟩) :=
  ⟨by decide, by rw [extract_eyes_indices rampFace (by decide)]; decide⟩

/-- A 48-point landmark list: fewer than 68 points, yet extraction
succeeds, because the script only ever accesses indices 36..47. -/
def lms48 : List Point := (List.range 48).map fun i => ((i : ℤ), 0)

/-- C9 counterexample: a landmark set with 48 points has fewer than 68
points, but eye extraction succeeds rather than failing. -/
theorem short_landmarks_cex :
    lms48.length < 68 ∧ extractEyes lms48 ≠ none := by
  decide

/-- C9 (amended): eye extraction fails exactly when fewer than 48 landmark
points are supplied (the script accesses indices 36..47 only, so 48..67
points also succeed), and an extraction failure is an uncaught exception
that terminates the loop with the `finally` cleanup rather than skipping
the face and continuing. -/
theorem extract_eyes_none_iff :
    (∀ lms : List Point, extractEyes lms = none ↔ lms.length < 48)
    ∧ (∀ (lms : List Point) (quit : Bool) (rest : List FrameIn),
        extractEyes lms = none →
        runLoop (FrameIn.frame [lms] quit :: rest) = cleanup) := by
  constructor
  · intro lms
    constructor
    · intro h
      by_contra hlen
      push_neg at hlen
      rw [extractEyes_of_le lms hlen] at h
      exact Option.noConfusion h
    · intro hlen
      cases h : extractEyes lms with
      | none => rfl
      | some v =>
        exfalso
        simp only [extractEyes, part, Option.pure_def, Option.bind_eq_bind,
          Option.bind_eq_some] at h
        obtain ⟨a36, h36, a37, h37, a38, h38, a39, h39, a40, h40, a41, h41,
          a42, h42, a43, h43, a44, h44, a45, h45, a46, h46, a47, h47, hv⟩ := h
        have hnone : lms.get? 47 = none := List.get?_eq_none.mpr (by omega)
        rw [hnone] at h47
        exact Option.noConfusion h47
  · intro lms quit rest h
    have hpf : processFace lms = none := by
      unfold processFace
      rw [h]
      rfl
    simp [runLoop, processFaces, hpf]

/-- C9 witness: the amended statement at the empty landmark list. -/
theorem extract_eyes_none_iff_w :
    extractEyes ([] : List Point) = none
    ∧ runLoop [FrameIn.frame [([] : List Point)] false, FrameIn.readFail]
      = cleanup :=
  ⟨(extract_eyes_none_iff.1 []).mpr (by decide),
   extract_eyes_none_iff.2 [] false [FrameIn.readFail]
     ((extract_eyes_none_iff.1 []).mpr (by decide))⟩

end Drowsiness
